import Mathlib

/-!
Shallow embedding of `data.py`, a minimal relational persistence layer:
column descriptors (`Field`), entity schemas (`DBClass` with an ordered
field mapping and a table name), entity instances (`DBObjectInst`), and
the gateway (`Database`) operations `get`, `save` (insert / update) over
an explicit store state.  SQL strings are built exactly as the source
builds them; the embedded engine implements the store contract the source
relies on (exact-match WHERE semantics, REPLACE conflict resolution).
-/

set_option autoImplicit false

namespace DataPy

/-- Python-style runtime values flowing through the layer: `none_v` is
Python `None` (also SQL NULL in rows), plus integers and strings. -/
inductive Value where
  | none_v : Value
  | int : Int → Value
  | text : String → Value
deriving DecidableEq, Repr

/-- Python truthiness of a `Value`: `None` is falsy, `0` is falsy, the
empty string is falsy, everything else is truthy. -/
def Value.pyTruthy : Value → Bool
  | Value.none_v => false
  | Value.int n => n != 0
  | Value.text s => s != ""

/-- Python `repr` of a `Value`, as used by `f"... {repr(self.default)}"`
and by the dict rendering in error messages. -/
def Value.pyRepr : Value → String
  | Value.none_v => "None"
  | Value.int n => toString n
  | Value.text s => "\x27" ++ s ++ "\x27"

/-- Python truthiness of an optional string (`None` and `""` are falsy),
used for `if self.constraints:` and `if not cls.table_name:`. -/
def optStrTruthy : Option String → Bool
  | Option.none => false
  | Option.some s => s != ""

/-- Column descriptor: storage type keyword plus the constructor arguments
of `Field.__init__` (`null`, `default`, `unique`, `constraints`). -/
structure Field where
  dbtype : String
  null : Bool
  default : Value
  unique : Bool
  constraints : Option String
deriving DecidableEq, Repr

/-- Embedding of `Field.to_ddl`: the storage type, then `NULL` /
`NOT NULL`, then a `DEFAULT` clause when `self.default` is truthy, then
`UNIQUE` when set, then the raw constraint text when truthy. -/
def Field.to_ddl (f : Field) : String :=
  let ddl := f.dbtype
  let ddl := if f.null then ddl ++ " NULL" else ddl ++ " NOT NULL"
  let ddl := if f.default.pyTruthy then ddl ++ " DEFAULT " ++ f.default.pyRepr else ddl
  let ddl := if f.unique then ddl ++ " UNIQUE" else ddl
  match f.constraints with
  | Option.some c => if c != "" then ddl ++ " " ++ c else ddl
  | Option.none => ddl

/-- Constructor of `TextField` (dbtype `TEXT`); arguments in the order of
`Field.__init__`. -/
def TextField (null : Bool) (default : Value) (unique : Bool)
    (constraints : Option String) : Field :=
  { dbtype := "TEXT", null := null, default := default, unique := unique,
    constraints := constraints }

/-- Constructor of `IntField` (dbtype `INTEGER`). -/
def IntField (null : Bool) (default : Value) (unique : Bool)
    (constraints : Option String) : Field :=
  { dbtype := "INTEGER", null := null, default := default, unique := unique,
    constraints := constraints }

/-- Constructor of `FloatField` (dbtype `REAL`). -/
def FloatField (null : Bool) (default : Value) (unique : Bool)
    (constraints : Option String) : Field :=
  { dbtype := "REAL", null := null, default := default, unique := unique,
    constraints := constraints }

/-- Constructor of `DateTimeField` (dbtype `TEXT`). -/
def DateTimeField (null : Bool) (default : Value) (unique : Bool)
    (constraints : Option String) : Field :=
  { dbtype := "TEXT", null := null, default := default, unique := unique,
    constraints := constraints }

/-- An entity class (`DBObject` subclass): its `__name__`, its
`table_name` class attribute (optional: unset or a string), and the
ordered `fields` mapping. -/
structure DBClass where
  name : String
  table_name : Option String
  fields : List (String × Field)
deriving DecidableEq, Repr

/-- Table name rendered into SQL text (the source interpolates
`cls.table_name` into f-strings only after the truthiness check or on
concrete classes where it is a plain string). -/
def DBClass.tname (cls : DBClass) : String :=
  cls.table_name.getD ""

/-- Embedding of `DBObject._fields_str`: field names joined by a comma. -/
def DBClass.fields_str (cls : DBClass) : String :=
  String.intercalate ", " (cls.fields.map (fun p => p.1))

/-- Embedding of `DBObject._placeholders_str`: one `?` per field. -/
def DBClass.placeholders_str (cls : DBClass) : String :=
  String.intercalate ", " (cls.fields.map (fun _ => "?"))

/-- Errors raised by the layer: `valueError` (get with no lookup
parameters), `recordNotFoundError`, `runtimeError` (missing table name),
`nameError` (an undefined name was referenced), `operationalError`
(failures from the store engine). -/
inductive DBError where
  | valueError : String → DBError
  | recordNotFoundError : String → DBError
  | runtimeError : String → DBError
  | nameError : String → DBError
  | operationalError : String → DBError
deriving DecidableEq, Repr

/-- Embedding of `DBObject.generate_create_table`: raises when
`cls.table_name` is falsy, otherwise emits the CREATE TABLE DDL with the
`id` primary-key column first and one column per declared field, joined
by a comma and newline. -/
def DBClass.generate_create_table (cls : DBClass) (if_not_exists : Bool) :
    Except DBError String :=
  if !optStrTruthy cls.table_name then
    Except.error (DBError.runtimeError "table_name must be specified!")
  else
    let ddl := "CREATE TABLE "
    let ddl := if if_not_exists then ddl ++ "IF NOT EXISTS " else ddl
    let ddl := ddl ++ cls.tname ++ " ("
    let cols := "id INTEGER PRIMARY KEY AUTOINCREMENT" ::
      cls.fields.map (fun p => p.1 ++ " " ++ p.2.to_ddl)
    Except.ok (ddl ++ String.intercalate ",\n" cols ++ ")")

/-- The `User` entity class from the source. -/
def User : DBClass :=
  { name := "User", table_name := Option.some "users",
    fields := [("username", TextField false Value.none_v true Option.none),
               ("password", TextField false Value.none_v false Option.none)] }

/-- The `Page` entity class from the source. -/
def Page : DBClass :=
  { name := "Page", table_name := Option.some "pages",
    fields := [("title", TextField false Value.none_v true Option.none),
               ("body", TextField false Value.none_v false Option.none)] }

/-- The `PageVersion` entity class from the source. -/
def PageVersion : DBClass :=
  { name := "PageVersion", table_name := Option.some "page_versions",
    fields := [("body", TextField false Value.none_v false Option.none),
               ("user_id", IntField false Value.none_v false (Option.some "REFERENCES users(id)")),
               ("saved_at", DateTimeField false Value.none_v false Option.none)] }

/-- A row (also a kwargs mapping): ordered association list from column
name to value, as produced by `sqlite3.Row` / keyword arguments. -/
abbrev Row := List (String × Value)

/-- Keyed lookup in a row / kwargs mapping, first match wins; a missing
key reads as Python `None` (`kwargs.get(...)`). -/
def lookupVal : Row → String → Value
  | [], _ => Value.none_v
  | p :: rest, k => if p.1 == k then p.2 else lookupVal rest k

/-- SQL equality as used by `col = ?`: NULL compares false against
everything (including NULL), otherwise plain value equality. -/
def sqlEqB : Value → Value → Bool
  | Value.none_v, _ => false
  | _, Value.none_v => false
  | a, b => a == b

/-- An entity instance: its class, its `id` attribute (Python `None`
while transient) and one attribute per declared field. -/
structure DBObjectInst where
  cls : DBClass
  id : Value
  attrs : Row
deriving DecidableEq, Repr

/-- Embedding of `DBObject.__init__(**kwargs)`: `id` from the `id` key
(default `None`), every declared field from the same-named key. -/
def DBClass.init (cls : DBClass) (kwargs : Row) : DBObjectInst :=
  { cls := cls, id := lookupVal kwargs "id",
    attrs := cls.fields.map (fun p => (p.1, lookupVal kwargs p.1)) }

/-- Attribute read (`getattr(self, field)`). -/
def DBObjectInst.getattr (o : DBObjectInst) (f : String) : Value :=
  lookupVal o.attrs f

/-- Embedding of `DBObject.field_names`. -/
def DBObjectInst.field_names (o : DBObjectInst) : List String :=
  o.cls.fields.map (fun p => p.1)

/-- Embedding of `DBObject.values`: current attribute values in declared
field order. -/
def DBObjectInst.values (o : DBObjectInst) : List Value :=
  o.field_names.map o.getattr

/-- Embedding of `DBObject.as_dict`: field names zipped with values. -/
def DBObjectInst.as_dict (o : DBObjectInst) : Row :=
  o.field_names.zip o.values

/-- The store state: one list of rows per table name. -/
structure DBState where
  tables : List (String × List Row)
deriving DecidableEq, Repr

/-- Look a table up by name. -/
def DBState.findTable (st : DBState) (name : String) : Option (List Row) :=
  (st.tables.find? (fun p => p.1 == name)).map (fun p => p.2)

/-- Replace the named table content. -/
def DBState.setTable (st : DBState) (name : String) (rows : List Row) : DBState :=
  { tables := st.tables.map (fun p => if p.1 == name then (p.1, rows) else p) }

/-- An executed parameterized statement: SQL text plus bound values. -/
abbrev Stmt := String × List Value

/-- Engine semantics of `WHERE k1 = ? AND k2 = ? ...`: every lookup pair
must SQL-equal the row's column. -/
def matchesRow (kwargs : Row) (r : Row) : Bool :=
  kwargs.all (fun p => sqlEqB (lookupVal r p.1) p.2)

/-- Python `repr` of the kwargs dict, as interpolated into the
not-found message (for example `\x7b\x27title\x27: \x27a\x27\x7d`). -/
def pyReprKwargs (kwargs : Row) : String :=
  "\x7b" ++
    String.intercalate ", "
      (kwargs.map (fun p => "\x27" ++ p.1 ++ "\x27: " ++ p.2.pyRepr)) ++
  "\x7d"

/-- Embedding of `Database.get`: raises `ValueError` before touching the
store when no lookup parameters are given; otherwise executes one SELECT
with the keys interpolated as `k = ?` clauses joined by AND and the
values bound positionally, fetches the first matching row only, raises
`RecordNotFoundError` when none matches, else materializes the row.
Returns (result, store state after the call, statements executed). -/
def Database.get (st : DBState) (cls : DBClass) (kwargs : Row) :
    Except DBError DBObjectInst × DBState × List Stmt :=
  if kwargs.isEmpty then
    (Except.error (DBError.valueError "Lookup parameters for .get() are required"), st, [])
  else
    let sql := "SELECT * FROM " ++ cls.tname ++ " WHERE " ++
      String.intercalate " AND " (kwargs.map (fun p => p.1 ++ " = ?"))
    let params := kwargs.map (fun p => p.2)
    match st.findTable cls.tname with
    | Option.none =>
        (Except.error (DBError.operationalError ("no such table: " ++ cls.tname)), st,
         [(sql, params)])
    | Option.some rows =>
        match (rows.filter (matchesRow kwargs)).head? with
        | Option.none =>
            (Except.error (DBError.recordNotFoundError
               ("No record for " ++ cls.name ++ " found with params " ++ pyReprKwargs kwargs)),
             st, [(sql, params)])
        | Option.some row => (Except.ok (cls.init row), st, [(sql, params)])

/-- REPLACE conflict test of the store engine: the candidate row evicts
an existing row when their primary keys collide or any UNIQUE column
collides (SQL equality, so NULLs never collide). -/
def conflictsWith (cls : DBClass) (newRow r : Row) : Bool :=
  sqlEqB (lookupVal r "id") (lookupVal newRow "id") ||
  cls.fields.any (fun p => p.2.unique && sqlEqB (lookupVal r p.1) (lookupVal newRow p.1))

/-- Embedding of `Database._update`: executes `REPLACE INTO <table>
(id, f1, ...) VALUES (?, ?, ...)` bound to `[id, *values()]`; the engine
evicts conflicting rows and stores the full new row.  Returns Python
`None` (the method has no return statement) and leaves the instance
untouched.  Result components: (return value, store state, instance
after the call, statements executed). -/
def Database._update (st : DBState) (o : DBObjectInst) :
    Except DBError (Option DBObjectInst) × DBState × DBObjectInst × List Stmt :=
  let sql := "REPLACE INTO " ++ o.cls.tname ++ " (id, " ++ o.cls.fields_str ++ ") " ++
    "VALUES (?, " ++ o.cls.placeholders_str ++ ")"
  let params := o.id :: o.values
  match st.findTable o.cls.tname with
  | Option.none =>
      (Except.error (DBError.operationalError ("no such table: " ++ o.cls.tname)), st, o,
       [(sql, params)])
  | Option.some rows =>
      let newRow : Row := ("id", o.id) :: o.as_dict
      let kept := rows.filter (fun r => !conflictsWith o.cls newRow r)
      (Except.ok Option.none, st.setTable o.cls.tname (kept ++ [newRow]), o, [(sql, params)])

/-- Embedding of `Database._create`: the method builds the INSERT text
but then evaluates `c.execute(...)` where `c` is an undefined name, so
every call raises `NameError` before any statement reaches the store and
before `dbobj.id` is assigned; the transaction scope rolls back. -/
def Database._create (st : DBState) (o : DBObjectInst) :
    Except DBError (Option DBObjectInst) × DBState × DBObjectInst × List Stmt :=
  let _sql := "INSERT INTO " ++ o.cls.tname ++ " (" ++ o.cls.fields_str ++ ") " ++
    "VALUES (" ++ o.cls.placeholders_str ++ ")"
  (Except.error (DBError.nameError "name \x27c\x27 is not defined"), st, o, [])

/-- Embedding of `Database.save`: dispatches on the truthiness of
`dbobj.id` (`if dbobj.id:`) to `_update`, else to `_create`, and returns
whatever the branch returns. -/
def Database.save (st : DBState) (o : DBObjectInst) :
    Except DBError (Option DBObjectInst) × DBState × DBObjectInst × List Stmt :=
  if o.id.pyTruthy then Database._update st o else Database._create st o

/-- Join DDL clauses with single spaces (specification-side combinator,
deliberately different from the append chain the source uses). -/
def joinClauses : List String → String
  | [] => ""
  | [c] => c
  | c :: rest => c ++ " " ++ joinClauses rest

/-- Specification shape of a column DDL fragment, from the spec text:
the storage-type keyword, a nullability clause (`NOT NULL` unless
nullable), a `DEFAULT` clause with the rendered literal when a truthy
default is set, `UNIQUE` when the flag is set, then the raw constraint
text verbatim when present (non-empty). -/
def toDdlSpec (f : Field) : String :=
  joinClauses
    ([f.dbtype] ++
     (if f.null then ["NULL"] else ["NOT NULL"]) ++
     (if f.default.pyTruthy then ["DEFAULT " ++ f.default.pyRepr] else []) ++
     (if f.unique then ["UNIQUE"] else []) ++
     (match f.constraints with
      | Option.some c => if c != "" then [c] else []
      | Option.none => []))

/-- Specification shape of the CREATE TABLE DDL: header with optional
`IF NOT EXISTS`, the table name, then the `id` primary-key column
followed by one column definition per declared field in declaration
order (column text from the spec-side `toDdlSpec`). -/
def createTableSpec (cls : DBClass) (if_not_exists : Bool) : String :=
  "CREATE TABLE " ++ (if if_not_exists then "IF NOT EXISTS " else "") ++
    cls.tname ++ " (" ++
    String.intercalate ",\n"
      ("id INTEGER PRIMARY KEY AUTOINCREMENT" ::
        cls.fields.map (fun p => p.1 ++ " " ++ toDdlSpec p.2)) ++ ")"

/-- Specification shape of the SELECT issued by `get`: a function of the
lookup KEYS alone (values are never interpolated into the text), keys
joined by AND as `k = ?` clauses. -/
def getSqlSpec (cls : DBClass) (keys : List String) : String :=
  "SELECT * FROM " ++ cls.tname ++ " WHERE " ++
    String.intercalate " AND " (keys.map (fun k => k ++ " = ?"))

/-- A store with one fresh (empty) `pages` table. -/
def stPages0 : DBState := { tables := [("pages", [])] }

/-- A store with one fresh (empty) `users` table. -/
def stUsers0 : DBState := { tables := [("users", [])] }

/-- A store whose `pages` table holds one row with id 1. -/
def stPages1 : DBState :=
  { tables := [("pages",
      [[("id", Value.int 1), ("title", Value.text "old"), ("body", Value.text "oldbody")]])] }

/-- A store whose `pages` table holds two rows sharing the same body. -/
def stPagesDup : DBState :=
  { tables := [("pages",
      [[("id", Value.int 1), ("title", Value.text "A"), ("body", Value.text "same")],
       [("id", Value.int 2), ("title", Value.text "B"), ("body", Value.text "same")]])] }

/-- A transient `Page` instance (no id). -/
def pgNew : DBObjectInst :=
  Page.init [("title", Value.text "Home"), ("body", Value.text "hello")]

/-- A persisted `Page` instance with id 1. -/
def pg1 : DBObjectInst :=
  Page.init [("id", Value.int 1), ("title", Value.text "Home"), ("body", Value.text "hello")]

/-- A `Page` instance whose id is the falsy integer 0. -/
def pg0 : DBObjectInst :=
  Page.init [("id", Value.int 0), ("title", Value.text "Zero"), ("body", Value.text "zb")]

/-- An entity class with no table name set. -/
def BrokenCls : DBClass :=
  { name := "Broken", table_name := Option.none, fields := [] }

/-- A persisted `Page` instance (id 1) carrying fresh field values,
different from the row stored in `stPages1`. -/
def pg1b : DBObjectInst :=
  Page.init [("id", Value.int 1), ("title", Value.text "Home2"), ("body", Value.text "hello2")]

/-- Lookup in a keyed map built over a name list: hit iff the key occurs. -/
theorem lookupVal_map_self (names : List String) (g : String → Value) (f : String) :
    lookupVal (names.map (fun n => (n, g n))) f =
      if f ∈ names then g f else Value.none_v := by
  induction names with
  | nil => simp [lookupVal]
  | cons n ns ih =>
      simp only [List.map_cons, lookupVal]
      by_cases h : n = f
      · subst h
        simp
      · have hb : (n == f) = false := beq_eq_false_iff_ne.mpr h
        simp [hb, ih, Ne.symm h]

/-- Zipping a list with its own image is mapping to pairs. -/
theorem zip_map_self (l : List String) (g : String → Value) :
    l.zip (l.map g) = l.map (fun a => (a, g a)) := by
  induction l with
  | nil => rfl
  | cons a l ih => simp [ih]

/-- The row update performed by `setTable`, seen through `find?`. -/
theorem find?_set_map (l : List (String × List Row)) (name : String) (rows : List Row) :
    (l.map (fun p => if p.1 == name then (p.1, rows) else p)).find? (fun p => p.1 == name) =
      (l.find? (fun p => p.1 == name)).map (fun p => (p.1, rows)) := by
  induction l with
  | nil => rfl
  | cons p l ih =>
      simp only [List.map_cons]
      cases hb : (p.1 == name) with
      | true => simp [List.find?, hb]
      | false =>
          simp only [hb, Bool.false_eq_true, if_false, List.find?]
          exact ih

/-- After `setTable`, the named table reads back as the new rows
(provided the table existed). -/
theorem findTable_setTable (st : DBState) (name : String) (rows newRows : List Row)
    (h : st.findTable name = Option.some rows) :
    (st.setTable name newRows).findTable name = Option.some newRows := by
  unfold DBState.findTable DBState.setTable
  unfold DBState.findTable at h
  rw [find?_set_map]
  cases hf : st.tables.find? (fun p => p.1 == name) with
  | none => rw [hf] at h; simp at h
  | some p => simp

/-- The source's append-built DDL fragment equals the spec-side
clause-list rendering, for every descriptor. -/
theorem toDdl_eq_spec_aux (f : Field) : f.to_ddl = toDdlSpec f := by
  obtain ⟨dbtype, nl, df, un, cs⟩ := f
  rcases cs with _ | c
  all_goals cases nl <;> cases un <;> cases hd : df.pyTruthy
  all_goals simp only [Field.to_ddl, toDdlSpec, hd, Bool.false_eq_true, if_true, if_false,
    List.cons_append, List.nil_append, List.singleton_append, List.append_nil]
  all_goals try (cases hc : (c != "") <;>
    simp only [hc, Bool.false_eq_true, if_true, if_false,
      List.cons_append, List.nil_append, List.append_nil])
  all_goals simp only [joinClauses]
  all_goals apply String.ext
  all_goals simp only [String.data_append, List.append_assoc, List.cons_append, List.nil_append]

/-- Claim C8 (counterexample): a descriptor whose default is set to the
falsy literal `0` renders with no `DEFAULT` clause at all, refuting
"whenever a default is set ... a DEFAULT clause". -/
theorem to_ddl_falsy_default_cex :
    (IntField false (Value.int 0) false Option.none).default = Value.int 0 ∧
    Field.to_ddl (IntField false (Value.int 0) false Option.none) = "INTEGER NOT NULL" ∧
    Field.to_ddl (IntField false (Value.int 0) false Option.none) ≠
      "INTEGER NOT NULL DEFAULT 0" := by
  refine ⟨rfl, rfl, ?_⟩
  decide

/-- Claim C8 (amended): `to_ddl` is a pure function of the descriptor
state whose output is the storage-type keyword, the nullability clause
(`NOT NULL` unless nullable, `NULL` otherwise), a `DEFAULT` clause with
the rendered literal whenever the default is set to a truthy value, then
`UNIQUE` if flagged, then the raw constraint appended verbatim when it
is a non-empty string. -/
theorem to_ddl_clause_order (f : Field) : f.to_ddl = toDdlSpec f :=
  toDdl_eq_spec_aux f

/-- Claim C4: `get` with zero lookup parameters raises the
invalid-argument error (`ValueError`), leaves the store state untouched
and executes no statement at all. -/
theorem get_no_params_rejected (st : DBState) (cls : DBClass) :
    Database.get st cls [] =
      (Except.error (DBError.valueError "Lookup parameters for .get() are required"), st, []) :=
  rfl

/-- Claim C1 (counterexample): on the update path `save` evaluates to
Python `None`, not to the instance that was passed in (which is left
unmutated), refuting "returns the same EntityInstance object". -/
theorem save_returns_none_cex :
    (Database.save stPages1 pg1).1 = Except.ok Option.none ∧
    (Database.save stPages1 pg1).1 ≠ Except.ok (Option.some pg1) ∧
    (Database.save stPages1 pg1).2.2.1 = pg1 := by
  refine ⟨rfl, ?_, rfl⟩
  intro hcontra
  have h2 : (Except.ok Option.none : Except DBError (Option DBObjectInst)) =
      Except.ok (Option.some pg1) := hcontra
  simp at h2

/-- Claim C1 (amended): `save` never mutates the instance it is given
(the update path does not touch it and the insert path fails before its
mutation point) and never returns the instance: it returns Python `None`
when it returns at all, otherwise it raises. -/
theorem save_returns_none_never_mutates (st : DBState) (o : DBObjectInst) :
    (Database.save st o).2.2.1 = o ∧
    ((Database.save st o).1 = Except.ok Option.none ∨
      ∃ e, (Database.save st o).1 = Except.error e) := by
  by_cases h : o.id.pyTruthy = true
  · simp only [Database.save, Database._update, h, if_true]
    cases hft : st.findTable o.cls.tname with
    | none => simp [hft]
    | some rows => simp [hft]
  · simp [Database.save, Database._create, h]

/-- Claim C2 (code bug): saving a transient instance (id unset) raises
`NameError` — `_create` references the undefined name `c` — so no INSERT
reaches the store and no id is ever assigned. -/
theorem insert_path_name_error :
    pgNew.id = Value.none_v ∧
    Database.save stPages0 pgNew =
      (Except.error (DBError.nameError "name \x27c\x27 is not defined"), stPages0, pgNew, []) :=
  ⟨rfl, rfl⟩

/-- Claim C3 (code bug): the save-then-get round trip fails for a
transient instance: `save` raises `NameError` from the broken insert
path, the id stays `None`, and the follow-up `get` by that id raises
`RecordNotFoundError`. -/
theorem round_trip_broken_for_transient :
    (Database.save stPages0 pgNew).1 =
      Except.error (DBError.nameError "name \x27c\x27 is not defined") ∧
    (Database.get (Database.save stPages0 pgNew).2.1 Page
        [("id", (Database.save stPages0 pgNew).2.2.1.id)]).1 =
      Except.error (DBError.recordNotFoundError
        "No record for Page found with params \x7b\x27id\x27: None\x7d") :=
  ⟨rfl, rfl⟩

/-- Claim C10: an instance whose id is the falsy integer 0 is dispatched
by `save` to the insert path (`_create`), not the update path, because
`if dbobj.id:` tests truthiness; the observable outcome (the `NameError`
of the broken insert path) differs from what `_update` would return. -/
theorem save_zero_id_insert_path (st : DBState) (o : DBObjectInst)
    (h : o.id = Value.int 0) :
    Database.save st o = Database._create st o ∧
    (Database.save st o).1 = Except.error (DBError.nameError "name \x27c\x27 is not defined") ∧
    (Database.save st o).1 ≠ (Database._update st o).1 := by
  have ht : o.id.pyTruthy = false := by rw [h]; decide
  refine ⟨?_, ?_, ?_⟩
  · simp [Database.save, ht]
  · simp [Database.save, ht, Database._create]
  · simp only [Database.save, ht, Bool.false_eq_true, if_false]
    cases hft : st.findTable o.cls.tname <;>
      simp [Database._create, Database._update, hft]

/-- Claim C10 (witness): the concrete id-0 page takes the insert path. -/
theorem save_zero_id_insert_path_witness :
    Database.save stPages0 pg0 = Database._create stPages0 pg0 ∧
    (Database.save stPages0 pg0).1 =
      Except.error (DBError.nameError "name \x27c\x27 is not defined") ∧
    (Database.save stPages0 pg0).1 ≠ (Database._update stPages0 pg0).1 :=
  save_zero_id_insert_path stPages0 pg0 rfl

/-- Claim C7: `generate_create_table` fails with the configuration error
when the table name is unset (falsy), otherwise emits
`CREATE TABLE [IF NOT EXISTS] <tableName>` with the
`id INTEGER PRIMARY KEY AUTOINCREMENT` column first and one column per
declared field in declaration order; for the `pages` schema it produces
exactly the expected DDL text (columns joined by a comma and newline). -/
theorem generate_create_table_ddl :
    (∀ (cls : DBClass) (b : Bool), optStrTruthy cls.table_name = false →
        cls.generate_create_table b =
          Except.error (DBError.runtimeError "table_name must be specified!")) ∧
    (∀ (cls : DBClass) (b : Bool), optStrTruthy cls.table_name = true →
        cls.generate_create_table b = Except.ok (createTableSpec cls b)) ∧
    Page.generate_create_table true = Except.ok
      "CREATE TABLE IF NOT EXISTS pages (id INTEGER PRIMARY KEY AUTOINCREMENT,\ntitle TEXT NOT NULL UNIQUE,\nbody TEXT NOT NULL)" := by
  refine ⟨?_, ?_, ?_⟩
  · intro cls b h
    simp [DBClass.generate_create_table, h]
  · intro cls b h
    have hmap : (fun p : String × Field => p.1 ++ " " ++ p.2.to_ddl) =
        (fun p : String × Field => p.1 ++ " " ++ toDdlSpec p.2) := by
      funext p
      rw [toDdl_eq_spec_aux]
    simp only [DBClass.generate_create_table, h, Bool.not_true, Bool.false_eq_true, if_false,
      createTableSpec, hmap]
    cases b <;> rfl
  · rfl

/-- Claim C7 (witness): the error branch at a class with no table name,
and the DDL branch at the `users` schema without `IF NOT EXISTS`. -/
theorem generate_create_table_ddl_witness :
    DBClass.generate_create_table BrokenCls true =
      Except.error (DBError.runtimeError "table_name must be specified!") ∧
    DBClass.generate_create_table User false =
      Except.ok "CREATE TABLE users (id INTEGER PRIMARY KEY AUTOINCREMENT,\nusername TEXT NOT NULL UNIQUE,\npassword TEXT NOT NULL)" :=
  ⟨generate_create_table_ddl.1 BrokenCls true rfl,
   generate_create_table_ddl.2.1 User false rfl⟩

/-- Claim C5: a `get` whose lookup matches zero rows fails with
`RecordNotFoundError` whose message carries the entity type name and the
rendered lookup parameters (and the one SELECT statement was executed,
the store state untouched). -/
theorem get_not_found (st : DBState) (cls : DBClass) (kwargs : Row) (rows : List Row)
    (hk : kwargs ≠ [])
    (ht : st.findTable cls.tname = Option.some rows)
    (hm : rows.filter (matchesRow kwargs) = []) :
    Database.get st cls kwargs =
      (Except.error (DBError.recordNotFoundError
         ("No record for " ++ cls.name ++ " found with params " ++ pyReprKwargs kwargs)),
       st,
       [(getSqlSpec cls (kwargs.map (fun p => p.1)), kwargs.map (fun p => p.2))]) := by
  obtain ⟨p, ks, rfl⟩ := List.exists_cons_of_ne_nil hk
  simp [Database.get, ht, hm, getSqlSpec, List.map_map, Function.comp_def]

/-- Claim C5 (witness): `get(User, username="nobody")` on an empty users
table raises the not-found error naming `User` and the parameters. -/
theorem get_not_found_witness :
    Database.get stUsers0 User [("username", Value.text "nobody")] =
      (Except.error (DBError.recordNotFoundError
         "No record for User found with params \x7b\x27username\x27: \x27nobody\x27\x7d"),
       stUsers0,
       [("SELECT * FROM users WHERE username = ?", [Value.text "nobody"])]) :=
  get_not_found stUsers0 User [("username", Value.text "nobody")] [] (by simp) rfl rfl

/-- Claim C6: a `get` with at least one lookup key executes exactly one
statement whose SQL text is `SELECT * FROM <table> WHERE k1 = ? AND ...`
— a function of the keys alone, in mapping iteration order, with every
value bound as a positional parameter — and when rows match, only the
first fetched row is converted and returned, the rest being ignored. -/
theorem get_select_shape_first_row (st : DBState) (cls : DBClass) (kwargs : Row) (rows : List Row)
    (hk : kwargs ≠ [])
    (ht : st.findTable cls.tname = Option.some rows) :
    (Database.get st cls kwargs).2.2 =
      [(getSqlSpec cls (kwargs.map (fun p => p.1)), kwargs.map (fun p => p.2))] ∧
    (∀ r rest, rows.filter (matchesRow kwargs) = r :: rest →
       (Database.get st cls kwargs).1 = Except.ok (cls.init r)) := by
  obtain ⟨p, ks, rfl⟩ := List.exists_cons_of_ne_nil hk
  constructor
  · cases hh : ((rows.filter (matchesRow (p :: ks))).head?) <;>
      simp [Database.get, ht, hh, getSqlSpec, List.map_map, Function.comp_def]
  · intro r rest hf
    simp [Database.get, ht, hf]

/-- Claim C6 (witness): with two rows matching `body = "same"`, the
executed SQL binds the value as a parameter and only the first matching
row (id 1) is returned; the id-2 row is silently ignored. -/
theorem get_select_shape_first_row_witness :
    (Database.get stPagesDup Page [("body", Value.text "same")]).2.2 =
      [("SELECT * FROM pages WHERE body = ?", [Value.text "same"])] ∧
    (Database.get stPagesDup Page [("body", Value.text "same")]).1 =
      Except.ok (Page.init
        [("id", Value.int 1), ("title", Value.text "A"), ("body", Value.text "same")]) := by
  have h := get_select_shape_first_row stPagesDup Page [("body", Value.text "same")]
    [[("id", Value.int 1), ("title", Value.text "A"), ("body", Value.text "same")],
     [("id", Value.int 2), ("title", Value.text "B"), ("body", Value.text "same")]]
    (by simp) rfl
  exact ⟨h.1, h.2
    [("id", Value.int 1), ("title", Value.text "A"), ("body", Value.text "same")]
    [[("id", Value.int 2), ("title", Value.text "B"), ("body", Value.text "same")]] rfl⟩

/-- Row↔object view of `as_dict`: one pair per declared field name. -/
theorem as_dict_eq_map (o : DBObjectInst) :
    o.as_dict = (o.cls.fields.map (fun p => p.1)).map (fun f => (f, o.getattr f)) := by
  unfold DBObjectInst.as_dict DBObjectInst.values DBObjectInst.field_names
  exact zip_map_self _ _

/-- Attributes assigned by `__init__`, as a keyed map over field names. -/
theorem init_attrs_eq_map (cls : DBClass) (kwargs : Row) :
    (cls.init kwargs).attrs =
      (cls.fields.map (fun p => p.1)).map (fun f => (f, lookupVal kwargs f)) := by
  unfold DBClass.init
  simp [List.map_map, Function.comp_def]

/-- The mapping view of a freshly constructed instance: every declared
field value is read from the input mapping. -/
theorem init_as_dict (cls : DBClass) (kwargs : Row) :
    (cls.init kwargs).as_dict =
      (cls.fields.map (fun p => p.1)).map (fun f => (f, lookupVal kwargs f)) := by
  rw [as_dict_eq_map]
  apply List.map_congr_left
  intro f hf
  have hf' : f ∈ cls.fields.map (fun p => p.1) := hf
  have hg : (cls.init kwargs).getattr f = lookupVal kwargs f := by
    unfold DBObjectInst.getattr
    rw [init_attrs_eq_map, lookupVal_map_self, if_pos hf']
  rw [hg]

/-- Materializing the row written by the REPLACE reproduces the saved
instance: same id, same field mapping (as long as no declared field
shadows the `id` column). -/
theorem init_replace_row (o : DBObjectInst)
    (hidf : "id" ∉ o.cls.fields.map (fun p => p.1)) :
    (o.cls.init (("id", o.id) :: o.as_dict)).id = o.id ∧
    (o.cls.init (("id", o.id) :: o.as_dict)).as_dict = o.as_dict := by
  constructor
  · simp [DBClass.init, lookupVal]
  · rw [init_as_dict, as_dict_eq_map o]
    apply List.map_congr_left
    intro f hf
    have hf' : f ∈ o.cls.fields.map (fun p => p.1) := hf
    have hfid : f ≠ "id" := fun hc => hidf (hc ▸ hf')
    have hb : ("id" == f) = false := beq_eq_false_iff_ne.mpr (Ne.symm hfid)
    simp only [lookupVal, hb, Bool.false_eq_true, if_false]
    rw [lookupVal_map_self, if_pos hf']

/-- Claim C9: for a persisted instance (positive integer id), `save`
always takes the update path, executes the full-row
`REPLACE INTO <table> (id, f1, ...) VALUES (?, ...)` statement with the
id first and every declared field value bound in declared order, leaves
the instance (hence its id) unchanged, and a subsequent `get` by that id
returns exactly the new field values. -/
theorem save_persisted_full_replace (st : DBState) (o : DBObjectInst) (n : Int) (rows : List Row)
    (hid : o.id = Value.int n) (hn : 0 < n)
    (ht : st.findTable o.cls.tname = Option.some rows)
    (hidf : "id" ∉ o.cls.fields.map (fun p => p.1)) :
    Database.save st o = Database._update st o ∧
    (Database.save st o).2.2.2 =
      [("REPLACE INTO " ++ o.cls.tname ++ " (id, " ++ o.cls.fields_str ++ ") " ++
          "VALUES (?, " ++ o.cls.placeholders_str ++ ")",
        o.id :: o.values)] ∧
    (Database.save st o).2.2.1 = o ∧
    (Database.save st o).1 = Except.ok Option.none ∧
    (∃ inst, (Database.get (Database.save st o).2.1 o.cls [("id", o.id)]).1 = Except.ok inst ∧
       inst.id = o.id ∧ inst.as_dict = o.as_dict) := by
  have htr : o.id.pyTruthy = true := by
    rw [hid]
    simp [Value.pyTruthy]
    omega
  have hsave : Database.save st o = Database._update st o := by
    simp [Database.save, htr]
  have hupd : Database._update st o =
      (Except.ok Option.none,
       st.setTable o.cls.tname
         ((rows.filter (fun r => !conflictsWith o.cls (("id", o.id) :: o.as_dict) r)) ++
           [("id", o.id) :: o.as_dict]),
       o,
       [("REPLACE INTO " ++ o.cls.tname ++ " (id, " ++ o.cls.fields_str ++ ") " ++
           "VALUES (?, " ++ o.cls.placeholders_str ++ ")", o.id :: o.values)]) := by
    simp [Database._update, ht]
  refine ⟨hsave, ?_, ?_, ?_, ?_⟩
  · rw [hsave, hupd]
  · rw [hsave, hupd]
  · rw [hsave, hupd]
  · rw [hsave, hupd]
    refine ⟨o.cls.init (("id", o.id) :: o.as_dict), ?_, (init_replace_row o hidf).1,
      (init_replace_row o hidf).2⟩
    have hft2 := findTable_setTable st o.cls.tname rows
      ((rows.filter (fun r => !conflictsWith o.cls (("id", o.id) :: o.as_dict) r)) ++
        [("id", o.id) :: o.as_dict]) ht
    have hnewid : lookupVal (("id", o.id) :: o.as_dict) "id" = o.id := by
      simp [lookupVal]
    have hmatchnew : matchesRow [("id", o.id)] (("id", o.id) :: o.as_dict) = true := by
      simp only [matchesRow, List.all_cons, List.all_nil, Bool.and_true, hnewid]
      rw [hid]
      simp [sqlEqB]
    have hkept :
        (rows.filter (fun r => !conflictsWith o.cls (("id", o.id) :: o.as_dict) r)).filter
          (matchesRow [("id", o.id)]) = [] := by
      rw [List.filter_eq_nil_iff]
      intro r hr
      have hrc := (List.mem_filter.mp hr).2
      have hc : conflictsWith o.cls (("id", o.id) :: o.as_dict) r = false := by
        simpa using hrc
      unfold conflictsWith at hc
      have hid0 : sqlEqB (lookupVal r "id") (lookupVal (("id", o.id) :: o.as_dict) "id") = false :=
        (Bool.or_eq_false_iff.mp hc).1
      rw [hnewid] at hid0
      simp [matchesRow, hid0]
    simp [Database.get, hft2, List.filter_append, hkept, hmatchnew]

/-- Claim C9 (witness): saving the id-1 page with fresh values replaces
the old row; `get(id=1)` afterwards sees only the new values and the
same id. -/
theorem save_persisted_full_replace_witness :
    Database.save stPages1 pg1b = Database._update stPages1 pg1b ∧
    (Database.save stPages1 pg1b).2.2.2 =
      [("REPLACE INTO pages (id, title, body) VALUES (?, ?, ?)",
        [Value.int 1, Value.text "Home2", Value.text "hello2"])] ∧
    (Database.save stPages1 pg1b).2.2.1 = pg1b ∧
    (Database.save stPages1 pg1b).1 = Except.ok Option.none ∧
    (∃ inst,
       (Database.get (Database.save stPages1 pg1b).2.1 Page [("id", Value.int 1)]).1 =
         Except.ok inst ∧
       inst.id = Value.int 1 ∧ inst.as_dict = pg1b.as_dict) :=
  save_persisted_full_replace stPages1 pg1b 1
    [[("id", Value.int 1), ("title", Value.text "old"), ("body", Value.text "oldbody")]]
    rfl (by decide) rfl (by decide)

end DataPy
